import Mathlib

/-!
MoltenVK, `MVKCmdRenderPass.h`.

A shallow embedding of the render-pass command recording declared and defined in
`MoltenVK/MoltenVK/Commands/MVKCmdRenderPass.h`, and the properties of
`MVKCmdBeginRenderPass::setContent`, `MVKCmdBeginRenderPass::encode`, `isAny`
and the concrete template instantiations.

Conventions of the embedding

* C pointers to objects that the code only stores and forwards (`MVKRenderPass*`,
  `MVKImageView*`, `MVKCommandBuffer*`) are `Nat` handles.
* A C pointer to an array (`pClearValues`, `pAttachments`) is the indexing function
  `i ↦ p[i]`; the element count travels next to it, as in the Vulkan structures.
* A `pNext` chain is the list of its structures in link order; the null pointer
  is the empty list.
* `uint32_t` counts are `Nat`.  Every counting loop of the file has the shape
  `for (uint32_t i = 0; i < n; i++)` with `n` a 32-bit count, so `i + 1 ≤ n < 2 ^ 32`
  and the increment never wraps (`uint32_increment_no_wrap`).
-/

namespace MoltenVK

/-! Vulkan types used by the header -/

/-- The `VkResult` codes are C integers. -/
abbrev VkResult := Int

/-- Vulkan `VK_SUCCESS`. -/
def VK_SUCCESS : VkResult := 0

/-- The `VkStructureType` tag that heads every structure of a `pNext` chain. -/
abbrev VkStructureType := Nat

/-- Vulkan `VK_STRUCTURE_TYPE_RENDER_PASS_ATTACHMENT_BEGIN_INFO`. -/
def VK_STRUCTURE_TYPE_RENDER_PASS_ATTACHMENT_BEGIN_INFO : VkStructureType := 1000108003

/-- Vulkan `VkSubpassContents`. -/
inductive VkSubpassContents where
  | VK_SUBPASS_CONTENTS_INLINE
  | VK_SUBPASS_CONTENTS_SECONDARY_COMMAND_BUFFERS
  deriving DecidableEq, Repr

/-- Vulkan `VkOffset2D`. -/
structure VkOffset2D where
  x : Int
  y : Int
  deriving DecidableEq, Repr

/-- Vulkan `VkExtent2D`. -/
structure VkExtent2D where
  width : Nat
  height : Nat
  deriving DecidableEq, Repr

/-- Vulkan `VkRect2D`. -/
structure VkRect2D where
  offset : VkOffset2D
  extent : VkExtent2D
  deriving DecidableEq, Repr

/-- Vulkan `VkClearValue`: a 16-byte union that the command copies bit for bit;
`raw` is that bit pattern. -/
structure VkClearValue where
  raw : Nat
  deriving DecidableEq, Repr

/-- Handle of an `MVKImageView` (`MVKImageView*`, equally a `VkImageView`). -/
abbrev MVKImageView := Nat

/-- Handle of an `MVKRenderPass` (`MVKRenderPass*`). -/
abbrev MVKRenderPass := Nat

/-- Handle of an `MVKCommandBuffer` (`MVKCommandBuffer*`). -/
abbrev MVKCommandBuffer := Nat

/-- One structure of a `pNext` chain, as the loop of `setContent` reads it: through
`VkBaseInStructure` it reads `sType` (and `pNext`, which is the list order), and
through the cast to `VkRenderPassAttachmentBeginInfo` it reads `attachmentCount`
and `pAttachments`. -/
structure VkBaseInStructure where
  sType : VkStructureType
  attachmentCount : Nat
  pAttachments : Nat → MVKImageView

/-- The object behind an `MVKFramebuffer*`, seen through the four accessors the
header calls on it (`MVKFramebuffer.h` declares them). -/
structure MVKFramebuffer where
  getAttachmentCount : Nat
  getAttachment : Nat → MVKImageView
  getExtent2D : VkExtent2D
  getLayerCount : Nat

/-- Vulkan `VkRenderPassBeginInfo`. -/
structure VkRenderPassBeginInfo where
  pNext : List VkBaseInStructure
  renderPass : MVKRenderPass
  framebuffer : MVKFramebuffer
  renderArea : VkRect2D
  clearValueCount : Nat
  pClearValues : Nat → VkClearValue

/-- Vulkan `VkSubpassBeginInfo`. -/
structure VkSubpassBeginInfo where
  pNext : List VkBaseInStructure
  contents : VkSubpassContents

/-! `MVKSmallVector` -/

/-- Modelled from the spec: `MVKSmallVector<T, N>` (`MVKSmallVector.h` is not among
the sources).  A sequence of `T` with inline capacity `N`; the capacity decides
where the elements are stored, never which elements the vector holds, so the
vector is its logical contents. -/
structure MVKSmallVector (T : Type) (N : Nat) where
  elems : List T

namespace MVKSmallVector

variable {T : Type} {N : Nat}

/-- Modelled from the spec: `clear()` resets the logical size to zero. -/
def clear (_v : MVKSmallVector T N) : MVKSmallVector T N := ⟨[]⟩

/-- Modelled from the spec: `reserve(n)` prepares storage and leaves the logical
contents as they are. -/
def reserve (v : MVKSmallVector T N) (_n : Nat) : MVKSmallVector T N := v

/-- Modelled from the spec: `push_back(v)` appends one element at the end. -/
def push_back (v : MVKSmallVector T N) (x : T) : MVKSmallVector T N := ⟨v.elems ++ [x]⟩

/-- Modelled from the spec: `contents()` is a read-only view of the current logical
contents. -/
def contents (v : MVKSmallVector T N) : List T := v.elems

end MVKSmallVector

/-- The loop `for (uint32_t i = start; i < n; i++) vec.push_back(p[i]);`. -/
def pushBackLoop {T : Type} {N : Nat} (n : Nat) (p : Nat → T) (i : Nat)
    (vec : MVKSmallVector T N) : MVKSmallVector T N :=
  if i < n then pushBackLoop n p (i + 1) (vec.push_back (p i)) else vec
termination_by n - i

/-! `MVKCmdBeginRenderPassBase` -/

/-- The member variables of `MVKCmdBeginRenderPassBase`. -/
structure MVKCmdBeginRenderPassBase where
  _renderPass : MVKRenderPass
  _framebuffer : MVKFramebuffer
  _renderArea : VkRect2D
  _contents : VkSubpassContents

/-- Modelled from the spec: `MVKCmdBeginRenderPassBase::setContent`, declared in the
header and defined outside it.  It captures the render-pass descriptor, the
framebuffer, the render area and the contents mode of the begin request verbatim,
and signals the fixed success result. -/
def MVKCmdBeginRenderPassBase.setContent (_self : MVKCmdBeginRenderPassBase)
    (_cmdBuff : MVKCommandBuffer) (pRenderPassBegin : VkRenderPassBeginInfo)
    (contents : VkSubpassContents) : VkResult × MVKCmdBeginRenderPassBase :=
  (VK_SUCCESS,
   { _renderPass := pRenderPassBegin.renderPass
     _framebuffer := pRenderPassBegin.framebuffer
     _renderArea := pRenderPassBegin.renderArea
     _contents := contents })

/-! `MVKCmdBeginRenderPass` -/

/-- Source `isAny`: scans `desired` front to back and answers `true` at the first
element equal to `value`, `false` when the list is exhausted. -/
def isAny (value : Nat) : List Nat → Bool
  | [] => false
  | d :: desired => if value == d then true else isAny value desired

/-- Default template argument `COND_CV = isAny(N_CV, {1, 2, 9})`. -/
def COND_CV_default (N_CV : Nat) : Bool := isAny N_CV [1, 2, 9]

/-- Default template argument `COND_A = isAny(N_A, {0, 1, 2, 9})`. -/
def COND_A_default (N_A : Nat) : Bool := isAny N_A [0, 1, 2, 9]

/-- The member variables of `MVKCmdBeginRenderPass<N_CV, N_A, COND_CV, COND_A>`:
those of the base class, then `_clearValues` and `_attachments`. -/
structure MVKCmdBeginRenderPass (N_CV N_A : Nat) extends MVKCmdBeginRenderPassBase where
  _clearValues : MVKSmallVector VkClearValue N_CV
  _attachments : MVKSmallVector MVKImageView N_A

/-- A command as its constructor leaves it: both vectors empty.  The four base
members have no initializer; `base` stands for whatever they hold. -/
def MVKCmdBeginRenderPass.fresh (N_CV N_A : Nat) (base : MVKCmdBeginRenderPassBase) :
    MVKCmdBeginRenderPass N_CV N_A :=
  { toMVKCmdBeginRenderPassBase := base, _clearValues := ⟨[]⟩, _attachments := ⟨[]⟩ }

/-- The loop over the `pNext` chain in `setContent`: the state it carries is the
`imageless` flag and `_attachments`. -/
def pNextLoop {N_A : Nat} :
    List VkBaseInStructure → Bool × MVKSmallVector MVKImageView N_A →
      Bool × MVKSmallVector MVKImageView N_A
  | [], st => st
  | next :: rest, (imageless, attachments) =>
    if next.sType = VK_STRUCTURE_TYPE_RENDER_PASS_ATTACHMENT_BEGIN_INFO then
      pNextLoop rest (true, pushBackLoop next.attachmentCount next.pAttachments 0 attachments)
    else
      pNextLoop rest (imageless, attachments)

/-- Source `MVKCmdBeginRenderPass::setContent(cmdBuff, pRenderPassBegin, contents)`. -/
def MVKCmdBeginRenderPass.setContent {N_CV N_A : Nat} (self : MVKCmdBeginRenderPass N_CV N_A)
    (cmdBuff : MVKCommandBuffer) (pRenderPassBegin : VkRenderPassBeginInfo)
    (contents : VkSubpassContents) : VkResult × MVKCmdBeginRenderPass N_CV N_A :=
  -- MVKCmdBeginRenderPassBase::setContent(cmdBuff, pRenderPassBegin, contents);
  let base := (self.toMVKCmdBeginRenderPassBase.setContent cmdBuff pRenderPassBegin contents).2
  -- Add clear values
  let cvCnt := pRenderPassBegin.clearValueCount
  let clearValues := (self._clearValues.clear).reserve cvCnt
  let clearValues := pushBackLoop cvCnt pRenderPassBegin.pClearValues 0 clearValues
  -- bool imageless = false; for (next = pNext; next; next = next->pNext) switch ...
  let (imageless, attachments) := pNextLoop pRenderPassBegin.pNext (false, self._attachments)
  -- if (!imageless) for (i < _framebuffer->getAttachmentCount()) push_back(getAttachment(i))
  let attachments :=
    if !imageless then
      pushBackLoop base._framebuffer.getAttachmentCount base._framebuffer.getAttachment 0
        attachments
    else attachments
  (VK_SUCCESS,
   { toMVKCmdBeginRenderPassBase := base, _clearValues := clearValues,
     _attachments := attachments })

/-- Source `MVKCmdBeginRenderPass::setContent(cmdBuff, pRenderPassBegin, pSubpassBeginInfo)`. -/
def MVKCmdBeginRenderPass.setContent2 {N_CV N_A : Nat} (self : MVKCmdBeginRenderPass N_CV N_A)
    (cmdBuff : MVKCommandBuffer) (pRenderPassBegin : VkRenderPassBeginInfo)
    (pSubpassBeginInfo : VkSubpassBeginInfo) : VkResult × MVKCmdBeginRenderPass N_CV N_A :=
  self.setContent cmdBuff pRenderPassBegin pSubpassBeginInfo.contents

/-! The encoder -/

/-- One call received by an `MVKCommandEncoder`.  The encoder is outside the header;
it is the trace of the calls made on it.  `passCmd` is the `this` pointer handed to
`beginRenderpass`, seen as the base part of the command. -/
inductive EncoderCall where
  | beginRenderpass (passCmd : MVKCmdBeginRenderPassBase) (subpassContents : VkSubpassContents)
      (renderPass : MVKRenderPass) (framebufferExtent : VkExtent2D)
      (framebufferLayerCount : Nat) (renderArea : VkRect2D)
      (clearValues : List VkClearValue) (attachments : List MVKImageView)

/-- An `MVKCommandEncoder`: the calls made on it so far, oldest first. -/
structure MVKCommandEncoder where
  calls : List EncoderCall

/-- The encoder entry point `MVKCommandEncoder::beginRenderpass(...)`: the call is
recorded with its arguments. -/
def MVKCommandEncoder.beginRenderpass (enc : MVKCommandEncoder)
    (passCmd : MVKCmdBeginRenderPassBase) (subpassContents : VkSubpassContents)
    (renderPass : MVKRenderPass) (framebufferExtent : VkExtent2D)
    (framebufferLayerCount : Nat) (renderArea : VkRect2D)
    (clearValues : List VkClearValue) (attachments : List MVKImageView) : MVKCommandEncoder :=
  ⟨enc.calls ++ [EncoderCall.beginRenderpass passCmd subpassContents renderPass framebufferExtent
    framebufferLayerCount renderArea clearValues attachments]⟩

/-- Source `MVKCmdBeginRenderPass::encode(cmdEncoder)`.  The method is not `const`:
the result is the command after the call together with the encoder after it. -/
def MVKCmdBeginRenderPass.encode {N_CV N_A : Nat} (self : MVKCmdBeginRenderPass N_CV N_A)
    (cmdEncoder : MVKCommandEncoder) : MVKCmdBeginRenderPass N_CV N_A × MVKCommandEncoder :=
  (self,
   cmdEncoder.beginRenderpass self.toMVKCmdBeginRenderPassBase
     self._contents
     self._renderPass
     self._framebuffer.getExtent2D
     self._framebuffer.getLayerCount
     self._renderArea
     self._clearValues.contents
     self._attachments.contents)

/-! Capacity tiers offered by the concrete template instantiations -/

/-- One `typedef MVKCmdBeginRenderPass<N_CV, N_A, COND_CV, COND_A> Name;` line. -/
structure BeginRenderPassTypedef where
  name : String
  N_CV : Nat
  N_A : Nat
  COND_CV : Bool
  COND_A : Bool
  deriving DecidableEq, Repr

/-- The concrete instantiations of `MVKCmdBeginRenderPass`, in source order. -/
def beginRenderPassTypedefs : List BeginRenderPassTypedef :=
  [ ⟨"MVKCmdBeginRenderPass10", 1, 0, true, true⟩,
    ⟨"MVKCmdBeginRenderPass20", 2, 0, true, true⟩,
    ⟨"MVKCmdBeginRenderPassMulti0", 9, 0, true, true⟩,
    ⟨"MVKCmdBeginRenderPass11", 1, 1, true, true⟩,
    ⟨"MVKCmdBeginRenderPass21", 2, 1, true, true⟩,
    ⟨"MVKCmdBeginRenderPassMulti1", 9, 1, true, true⟩,
    ⟨"MVKCmdBeginRenderPass12", 1, 2, true, true⟩,
    ⟨"MVKCmdBeginRenderPass22", 2, 2, true, true⟩,
    ⟨"MVKCmdBeginRenderPassMulti2", 9, 2, true, true⟩,
    ⟨"MVKCmdBeginRenderPass1Multi", 1, 9, true, true⟩,
    ⟨"MVKCmdBeginRenderPass2Multi", 2, 9, true, true⟩,
    ⟨"MVKCmdBeginRenderPassMultiMulti", 9, 9, true, true⟩ ]

/-- One `typedef Cmd<N> Name;` line of a command template with a single capacity. -/
structure CapacityTypedef where
  name : String
  N : Nat
  deriving DecidableEq, Repr

/-- The concrete instantiations of `MVKCmdExecuteCommands`. -/
def executeCommandsTypedefs : List CapacityTypedef :=
  [ ⟨"MVKCmdExecuteCommands1", 1⟩, ⟨"MVKCmdExecuteCommandsMulti", 16⟩ ]

/-- The concrete instantiations of `MVKCmdSetViewport`.  The constant
`kMVKCachedViewportScissorCount` is declared outside the header and is a parameter. -/
def setViewportTypedefs (kMVKCachedViewportScissorCount : Nat) : List CapacityTypedef :=
  [ ⟨"MVKCmdSetViewport1", 1⟩, ⟨"MVKCmdSetViewportMulti", kMVKCachedViewportScissorCount⟩ ]

/-- The concrete instantiations of `MVKCmdSetScissor`.  The constant
`kMVKCachedViewportScissorCount` is declared outside the header and is a parameter. -/
def setScissorTypedefs (kMVKCachedViewportScissorCount : Nat) : List CapacityTypedef :=
  [ ⟨"MVKCmdSetScissor1", 1⟩, ⟨"MVKCmdSetScissorMulti", kMVKCachedViewportScissorCount⟩ ]

/-- The variable-length payloads of the header. -/
inductive PayloadKind where
  | beginRenderPassClearValues
  | beginRenderPassAttachments
  | executeCommands
  | setViewport
  | setScissor
  deriving DecidableEq, Repr

/-- The capacities offered for the secondary command buffers of `MVKCmdExecuteCommands`;
they do not depend on any constant outside the header. -/
def executeCommandsCapacities : List Nat := (executeCommandsTypedefs.map (·.N)).eraseDups

/-- The set of inline capacities the typedefs offer for a payload, each capacity
listed once, in order of first appearance. -/
def offeredCapacities (kMVKCachedViewportScissorCount : Nat) : PayloadKind → List Nat
  | .beginRenderPassClearValues => (beginRenderPassTypedefs.map (·.N_CV)).eraseDups
  | .beginRenderPassAttachments => (beginRenderPassTypedefs.map (·.N_A)).eraseDups
  | .executeCommands => executeCommandsCapacities
  | .setViewport => ((setViewportTypedefs kMVKCachedViewportScissorCount).map (·.N)).eraseDups
  | .setScissor => ((setScissorTypedefs kMVKCachedViewportScissorCount).map (·.N)).eraseDups

/-- A small tier covering the single-item case: the capacity 1 is offered. -/
def HasSmallTier (caps : List Nat) : Prop := 1 ∈ caps

/-- Exactly one overflow tier, the largest capacity offered: one offered capacity, and
only one, has no offered capacity above it. -/
def HasExactlyOneOverflowTier (caps : List Nat) : Prop :=
  (caps.filter (fun o => decide (∀ c ∈ caps, c ≤ o))).length = 1

/-- A further common-small tier: an offered capacity that is neither the small tier
nor an overflow tier. -/
def HasCommonSmallTier (caps : List Nat) : Prop :=
  ∃ c ∈ caps, c ≠ 1 ∧ ¬ (∀ d ∈ caps, d ≤ c)

/-- The capacity-tier invariant in the words of the specification: a small tier
covering the single-item case, at least one further common-small tier, and exactly
one overflow tier, which is the largest capacity offered. -/
def TierInvariant (caps : List Nat) : Prop :=
  HasSmallTier caps ∧ HasCommonSmallTier caps ∧ HasExactlyOneOverflowTier caps

instance (caps : List Nat) : Decidable (HasSmallTier caps) := by
  unfold HasSmallTier; infer_instance

instance (caps : List Nat) : Decidable (HasExactlyOneOverflowTier caps) := by
  unfold HasExactlyOneOverflowTier; infer_instance

instance (caps : List Nat) : Decidable (HasCommonSmallTier caps) := by
  unfold HasCommonSmallTier; infer_instance

instance (caps : List Nat) : Decidable (TierInvariant caps) := by
  unfold TierInvariant; infer_instance

/-! Concrete inputs used to exercise the definitions -/

/-- The elements `p[0] .. p[n-1]` of the array behind pointer `p`, in index order. -/
def arrayElems {T : Type} (n : Nat) (p : Nat → T) : List T := (List.range n).map p

/-- A pointer to the array holding `xs` (reads past the end give `dflt`). -/
def arrayOf {T : Type} (xs : List T) (dflt : T) : Nat → T := fun i => xs.getD i dflt

/-- A framebuffer declaring the attachments `views`. -/
def framebufferOf (views : List MVKImageView) : MVKFramebuffer :=
  { getAttachmentCount := views.length
    getAttachment := arrayOf views 0
    getExtent2D := ⟨640, 480⟩
    getLayerCount := 1 }

/-- The test of the `switch` in `setContent`: the structure is of the one kind the
command recognizes. -/
def isAttachmentBeginInfo (s : VkBaseInStructure) : Bool :=
  decide (s.sType = VK_STRUCTURE_TYPE_RENDER_PASS_ATTACHMENT_BEGIN_INFO)

/-- An explicit-attachment structure (`VkRenderPassAttachmentBeginInfo`) listing `views`. -/
def attachmentBeginInfoOf (views : List MVKImageView) : VkBaseInStructure :=
  { sType := VK_STRUCTURE_TYPE_RENDER_PASS_ATTACHMENT_BEGIN_INFO
    attachmentCount := views.length
    pAttachments := arrayOf views 0 }

/-- A chain structure of a kind the command does not know
(`VK_STRUCTURE_TYPE_DEVICE_GROUP_RENDER_PASS_BEGIN_INFO`). -/
def deviceGroupBeginInfo : VkBaseInStructure :=
  { sType := 1000060003, attachmentCount := 5, pAttachments := fun i => 900 + i }

/-- A begin request over `chain` with a framebuffer declaring `views` and the clear
values `cvs`. -/
def beginInfoOf (chain : List VkBaseInStructure) (views : List MVKImageView)
    (cvs : List VkClearValue) : VkRenderPassBeginInfo :=
  { pNext := chain
    renderPass := 77
    framebuffer := framebufferOf views
    renderArea := ⟨⟨0, 0⟩, ⟨640, 480⟩⟩
    clearValueCount := cvs.length
    pClearValues := arrayOf cvs ⟨0⟩ }

/-- Base members of a command that has not recorded anything. -/
def unsetBase : MVKCmdBeginRenderPassBase :=
  { _renderPass := 0
    _framebuffer := framebufferOf []
    _renderArea := ⟨⟨0, 0⟩, ⟨0, 0⟩⟩
    _contents := .VK_SUBPASS_CONTENTS_INLINE }

/-- The begin request with every chain structure of an unrecognized kind removed. -/
def withoutUnrecognized (req : VkRenderPassBeginInfo) : VkRenderPassBeginInfo :=
  { req with pNext := req.pNext.filter isAttachmentBeginInfo }

/-- The views the chain loop appends: the lists of the recognized structures, in
chain order. -/
def explicitAttachments : List VkBaseInStructure → List MVKImageView
  | [] => []
  | s :: rest =>
    (if isAttachmentBeginInfo s then arrayElems s.attachmentCount s.pAttachments else [])
      ++ explicitAttachments rest

/-! Loop lemmas -/

/-- A 32-bit loop counter below a 32-bit bound is incremented without wrapping. -/
theorem uint32_increment_no_wrap (i n : Nat) (hi : i < n) (hn : n < 2 ^ 32) :
    (i + 1) % 2 ^ 32 = i + 1 :=
  Nat.mod_eq_of_lt (by omega)

/-- The push-back loop from index `i` appends `p[i] .. p[n-1]`. -/
theorem pushBackLoop_elems {T : Type} {N : Nat} (n : Nat) (p : Nat → T) (i : Nat)
    (vec : MVKSmallVector T N) :
    (pushBackLoop n p i vec).elems = vec.elems ++ (List.range' i (n - i)).map p := by
  generalize h : n - i = k
  induction k generalizing i vec with
  | zero =>
    rw [pushBackLoop, if_neg (by omega)]
    simp
  | succ k ih =>
    rw [pushBackLoop, if_pos (by omega), ih (i + 1) _ (by omega)]
    simp [MVKSmallVector.push_back, List.range'_succ]

/-- The push-back loop from index 0 appends `p[0] .. p[n-1]`. -/
theorem pushBackLoop_zero {T : Type} {N : Nat} (n : Nat) (p : Nat → T)
    (vec : MVKSmallVector T N) :
    (pushBackLoop n p 0 vec).elems = vec.elems ++ arrayElems n p := by
  rw [pushBackLoop_elems, arrayElems, List.range_eq_range']
  simp

/-- The length of `p[0] .. p[n-1]` is `n`. -/
theorem arrayElems_length {T : Type} (n : Nat) (p : Nat → T) :
    (arrayElems n p).length = n := by
  simp [arrayElems]

/-- Entry `i` of `p[0] .. p[n-1]` is `p[i]`. -/
theorem arrayElems_getElem? {T : Type} (n : Nat) (p : Nat → T) (i : Nat) (hi : i < n) :
    (arrayElems n p)[i]? = some (p i) := by
  simp [arrayElems, List.getElem?_map, List.getElem?_range hi]

/-- Structures of other kinds do not change the state of the chain loop. -/
theorem pNextLoop_filter {N_A : Nat} (chain : List VkBaseInStructure)
    (st : Bool × MVKSmallVector MVKImageView N_A) :
    pNextLoop chain st = pNextLoop (chain.filter isAttachmentBeginInfo) st := by
  induction chain generalizing st with
  | nil => rfl
  | cons next rest ih =>
    obtain ⟨imageless, attachments⟩ := st
    by_cases h : next.sType = VK_STRUCTURE_TYPE_RENDER_PASS_ATTACHMENT_BEGIN_INFO
    · have hf : isAttachmentBeginInfo next = true := by simp [isAttachmentBeginInfo, h]
      rw [List.filter_cons_of_pos hf]
      simp only [pNextLoop, h, if_true]
      exact ih _
    · have hf : ¬ isAttachmentBeginInfo next = true := by simp [isAttachmentBeginInfo, h]
      rw [List.filter_cons_of_neg hf]
      simp only [pNextLoop, h, if_false]
      exact ih _

/-- A chain without a recognized structure leaves the loop state as it was. -/
theorem pNextLoop_unrecognized {N_A : Nat} (chain : List VkBaseInStructure)
    (h : ∀ s ∈ chain, s.sType ≠ VK_STRUCTURE_TYPE_RENDER_PASS_ATTACHMENT_BEGIN_INFO)
    (st : Bool × MVKSmallVector MVKImageView N_A) :
    pNextLoop chain st = st := by
  have hnil : chain.filter isAttachmentBeginInfo = [] := by
    rw [List.filter_eq_nil_iff]
    intro s hs
    simpa [isAttachmentBeginInfo] using h s hs
  rw [pNextLoop_filter, hnil]
  rfl

/-- One recognized structure sets the flag and appends its list. -/
theorem pNextLoop_single {N_A : Nat} (info : VkBaseInStructure)
    (h : info.sType = VK_STRUCTURE_TYPE_RENDER_PASS_ATTACHMENT_BEGIN_INFO)
    (imageless : Bool) (attachments : MVKSmallVector MVKImageView N_A) :
    pNextLoop [info] (imageless, attachments)
      = (true, pushBackLoop info.attachmentCount info.pAttachments 0 attachments) := by
  simp [pNextLoop, h]

/-- The attachments after `setContent`, in terms of the two loops. -/
theorem setContent_attachments_eq {N_CV N_A : Nat} (self : MVKCmdBeginRenderPass N_CV N_A)
    (cmdBuff : MVKCommandBuffer) (req : VkRenderPassBeginInfo) (contents : VkSubpassContents) :
    (self.setContent cmdBuff req contents).2._attachments
      = if !(pNextLoop req.pNext (false, self._attachments)).1 then
          pushBackLoop req.framebuffer.getAttachmentCount req.framebuffer.getAttachment 0
            (pNextLoop req.pNext (false, self._attachments)).2
        else (pNextLoop req.pNext (false, self._attachments)).2 := by
  rfl

/-- The chain loop raises the flag when a recognized structure occurs and appends
the lists of the recognized structures. -/
theorem pNextLoop_eq {N_A : Nat} (chain : List VkBaseInStructure) (imageless : Bool)
    (attachments : MVKSmallVector MVKImageView N_A) :
    pNextLoop chain (imageless, attachments)
      = (imageless || chain.any isAttachmentBeginInfo,
          ⟨attachments.elems ++ explicitAttachments chain⟩) := by
  induction chain generalizing imageless attachments with
  | nil => simp [pNextLoop, explicitAttachments]
  | cons next rest ih =>
    by_cases h : next.sType = VK_STRUCTURE_TYPE_RENDER_PASS_ATTACHMENT_BEGIN_INFO
    · simp only [pNextLoop, h, if_true]
      rw [ih]
      simp [explicitAttachments, isAttachmentBeginInfo, h, pushBackLoop_zero]
    · simp only [pNextLoop, h, if_false]
      rw [ih]
      simp [explicitAttachments, isAttachmentBeginInfo, h]

/-- A chain without a recognized structure contributes no explicit view. -/
theorem explicitAttachments_of_none (chain : List VkBaseInStructure)
    (h : chain.any isAttachmentBeginInfo = false) : explicitAttachments chain = [] := by
  induction chain with
  | nil => rfl
  | cons s rest ih =>
    simp only [List.any_cons, Bool.or_eq_false_iff] at h
    simp [explicitAttachments, h.1, ih h.2]

/-- The attachments after `setContent`: what the command held before the call, then
either the lists of the recognized chain structures or, when the chain has none, the
attachments of the framebuffer. -/
theorem setContent_attachments_contents {N_CV N_A : Nat}
    (self : MVKCmdBeginRenderPass N_CV N_A) (cmdBuff : MVKCommandBuffer)
    (req : VkRenderPassBeginInfo) (contents : VkSubpassContents) :
    (self.setContent cmdBuff req contents).2._attachments.contents
      = self._attachments.contents
        ++ (if req.pNext.any isAttachmentBeginInfo then explicitAttachments req.pNext
            else arrayElems req.framebuffer.getAttachmentCount req.framebuffer.getAttachment) := by
  rw [setContent_attachments_eq, pNextLoop_eq]
  by_cases h : req.pNext.any isAttachmentBeginInfo = true
  · simp [h, MVKSmallVector.contents]
  · simp only [Bool.not_eq_true] at h
    simp [h, MVKSmallVector.contents, pushBackLoop_zero, explicitAttachments_of_none _ h]

/-- The clear values after `setContent`, in terms of the copy loop. -/
theorem setContent_clearValues_eq {N_CV N_A : Nat} (self : MVKCmdBeginRenderPass N_CV N_A)
    (cmdBuff : MVKCommandBuffer) (req : VkRenderPassBeginInfo) (contents : VkSubpassContents) :
    (self.setContent cmdBuff req contents).2._clearValues.contents
      = arrayElems req.clearValueCount req.pClearValues := by
  show (pushBackLoop _ _ 0 _).elems = _
  rw [pushBackLoop_zero]
  rfl

/-! `MVKCmdBeginRenderPass::setContent` -/

/-- C1: a begin request whose `pNext` chain holds no `VkRenderPassAttachmentBeginInfo`,
recorded into a command that has captured no attachment yet, leaves in `_attachments`
exactly `getAttachment(0) .. getAttachment(getAttachmentCount()-1)` of the framebuffer
of the request: same elements, same order, same length. -/
theorem setContent_attachments_from_framebuffer {N_CV N_A : Nat}
    (self : MVKCmdBeginRenderPass N_CV N_A) (cmdBuff : MVKCommandBuffer)
    (req : VkRenderPassBeginInfo) (contents : VkSubpassContents)
    (hfresh : self._attachments.contents = [])
    (hchain : ∀ s ∈ req.pNext,
      s.sType ≠ VK_STRUCTURE_TYPE_RENDER_PASS_ATTACHMENT_BEGIN_INFO) :
    (self.setContent cmdBuff req contents).2._attachments.contents
        = arrayElems req.framebuffer.getAttachmentCount req.framebuffer.getAttachment
      ∧ (self.setContent cmdBuff req contents).2._attachments.contents.length
        = req.framebuffer.getAttachmentCount
      ∧ ∀ i, i < req.framebuffer.getAttachmentCount →
          (self.setContent cmdBuff req contents).2._attachments.contents[i]?
            = some (req.framebuffer.getAttachment i) := by
  have hmain : (self.setContent cmdBuff req contents).2._attachments.contents
      = arrayElems req.framebuffer.getAttachmentCount req.framebuffer.getAttachment := by
    rw [setContent_attachments_eq, pNextLoop_unrecognized _ hchain]
    show (pushBackLoop _ _ 0 _).elems = _
    rw [pushBackLoop_zero]
    have h0 : self._attachments.elems = [] := hfresh
    rw [h0, List.nil_append]
  refine ⟨hmain, ?_, ?_⟩
  · rw [hmain, arrayElems_length]
  · intro i hi
    rw [hmain, arrayElems_getElem? _ _ _ hi]

/-- Witness of C1: a new command records a request whose chain holds one unrecognized
structure, with a framebuffer declaring the views 7, 8, 9. -/
theorem setContent_attachments_from_framebuffer_witness :
    ((MVKCmdBeginRenderPass.fresh 1 2 unsetBase).setContent 0
        (beginInfoOf [deviceGroupBeginInfo] [7, 8, 9] [⟨1⟩])
        .VK_SUBPASS_CONTENTS_INLINE).2._attachments.contents = [7, 8, 9] :=
  (setContent_attachments_from_framebuffer (MVKCmdBeginRenderPass.fresh 1 2 unsetBase) 0
    (beginInfoOf [deviceGroupBeginInfo] [7, 8, 9] [⟨1⟩]) .VK_SUBPASS_CONTENTS_INLINE rfl
    (by decide)).1

/-- C2: a begin request whose `pNext` chain holds one `VkRenderPassAttachmentBeginInfo`,
recorded into a command that has captured no attachment yet, leaves in `_attachments`
exactly `pAttachments[0 .. attachmentCount-1]` of that structure, same order and same
length, whatever the framebuffer declares. -/
theorem setContent_attachments_from_explicit_list {N_CV N_A : Nat}
    (self : MVKCmdBeginRenderPass N_CV N_A) (cmdBuff : MVKCommandBuffer)
    (req : VkRenderPassBeginInfo) (contents : VkSubpassContents) (info : VkBaseInStructure)
    (hfresh : self._attachments.contents = [])
    (hone : req.pNext.filter isAttachmentBeginInfo = [info]) :
    (self.setContent cmdBuff req contents).2._attachments.contents
        = arrayElems info.attachmentCount info.pAttachments
      ∧ (self.setContent cmdBuff req contents).2._attachments.contents.length
        = info.attachmentCount := by
  have hmem : info ∈ req.pNext.filter isAttachmentBeginInfo := by simp [hone]
  have hK : info.sType = VK_STRUCTURE_TYPE_RENDER_PASS_ATTACHMENT_BEGIN_INFO := by
    simpa [isAttachmentBeginInfo] using (List.mem_filter.mp hmem).2
  have hmain : (self.setContent cmdBuff req contents).2._attachments.contents
      = arrayElems info.attachmentCount info.pAttachments := by
    rw [setContent_attachments_eq, pNextLoop_filter, hone, pNextLoop_single _ hK]
    show (pushBackLoop _ _ 0 _).elems = _
    rw [pushBackLoop_zero]
    have h0 : self._attachments.elems = [] := hfresh
    rw [h0, List.nil_append]
  exact ⟨hmain, by rw [hmain, arrayElems_length]⟩

/-- Witness of C2: the chain carries the explicit list 41, 42 between two structures
of another kind, and the framebuffer declares 7, 8, 9. -/
theorem setContent_attachments_from_explicit_list_witness :
    ((MVKCmdBeginRenderPass.fresh 2 1 unsetBase).setContent 0
        (beginInfoOf [deviceGroupBeginInfo, attachmentBeginInfoOf [41, 42], deviceGroupBeginInfo]
          [7, 8, 9] [])
        .VK_SUBPASS_CONTENTS_INLINE).2._attachments.contents = [41, 42] :=
  (setContent_attachments_from_explicit_list (MVKCmdBeginRenderPass.fresh 2 1 unsetBase) 0
    (beginInfoOf [deviceGroupBeginInfo, attachmentBeginInfoOf [41, 42], deviceGroupBeginInfo]
      [7, 8, 9] [])
    .VK_SUBPASS_CONTENTS_INLINE (attachmentBeginInfoOf [41, 42]) rfl rfl).1

/-- C3: recording twice on one command object, as happens when the command comes back
from its pool, leaves the attachments of the first recording in front of those of the
second.  After the second call `_attachments` is neither the list declared by the
framebuffer of that call nor the explicit list of that call: it holds entries of
both recordings. -/
theorem setContent_reuse_accumulates_attachments :
    ((((MVKCmdBeginRenderPass.fresh 1 1 unsetBase).setContent 0
          (beginInfoOf [] [11] [⟨1⟩]) .VK_SUBPASS_CONTENTS_INLINE).2.setContent 0
          (beginInfoOf [] [22] [⟨2⟩]) .VK_SUBPASS_CONTENTS_INLINE).2._attachments.contents
        = [11, 22])
      ∧ ((((MVKCmdBeginRenderPass.fresh 1 1 unsetBase).setContent 0
          (beginInfoOf [] [11] [⟨1⟩]) .VK_SUBPASS_CONTENTS_INLINE).2.setContent 0
          (beginInfoOf [attachmentBeginInfoOf [33]] [22] [⟨2⟩])
          .VK_SUBPASS_CONTENTS_INLINE).2._attachments.contents
        = [11, 33])
      ∧ arrayElems (beginInfoOf [] [22] [⟨2⟩]).framebuffer.getAttachmentCount
          (beginInfoOf [] [22] [⟨2⟩]).framebuffer.getAttachment = [22]
      ∧ arrayElems (attachmentBeginInfoOf [33]).attachmentCount
          (attachmentBeginInfoOf [33]).pAttachments = [33]
      ∧ ((((MVKCmdBeginRenderPass.fresh 1 1 unsetBase).setContent 0
          (beginInfoOf [] [11] [⟨1⟩]) .VK_SUBPASS_CONTENTS_INLINE).2.setContent 0
          (beginInfoOf [] [22] [⟨2⟩]) .VK_SUBPASS_CONTENTS_INLINE).2._clearValues.contents
        = [⟨2⟩]) := by
  refine ⟨?_, ?_, by decide, by decide, ?_⟩
  · simp only [setContent_attachments_contents]
    decide
  · simp only [setContent_attachments_contents]
    decide
  · rw [setContent_clearValues_eq]
    decide

/-- C4: whatever the command held before, after `setContent` the clear-value vector
has exactly `clearValueCount` entries and entry `i` is `pClearValues[i]`; clear values
of an earlier recording are gone. -/
theorem setContent_clearValues {N_CV N_A : Nat}
    (self : MVKCmdBeginRenderPass N_CV N_A) (cmdBuff : MVKCommandBuffer)
    (req : VkRenderPassBeginInfo) (contents : VkSubpassContents) :
    (self.setContent cmdBuff req contents).2._clearValues.contents
        = arrayElems req.clearValueCount req.pClearValues
      ∧ (self.setContent cmdBuff req contents).2._clearValues.contents.length
        = req.clearValueCount
      ∧ ∀ i, i < req.clearValueCount →
          (self.setContent cmdBuff req contents).2._clearValues.contents[i]?
            = some (req.pClearValues i) := by
  refine ⟨setContent_clearValues_eq self cmdBuff req contents, ?_, ?_⟩
  · rw [setContent_clearValues_eq, arrayElems_length]
  · intro i hi
    rw [setContent_clearValues_eq, arrayElems_getElem? _ _ _ hi]

/-- Witness of C4: a command that already holds three clear values records a request
with two; entry 1 of the result is the second clear value of the request. -/
theorem setContent_clearValues_witness :
    (({ toMVKCmdBeginRenderPassBase := unsetBase, _clearValues := ⟨[⟨5⟩, ⟨6⟩, ⟨7⟩]⟩,
        _attachments := ⟨[]⟩ } : MVKCmdBeginRenderPass 1 1).setContent 0
        (beginInfoOf [] [7] [⟨1⟩, ⟨2⟩]) .VK_SUBPASS_CONTENTS_INLINE).2._clearValues.contents[1]?
      = some ((beginInfoOf [] [7] [⟨1⟩, ⟨2⟩]).pClearValues 1) :=
  (setContent_clearValues
    ({ toMVKCmdBeginRenderPassBase := unsetBase, _clearValues := ⟨[⟨5⟩, ⟨6⟩, ⟨7⟩]⟩,
       _attachments := ⟨[]⟩ } : MVKCmdBeginRenderPass 1 1) 0
    (beginInfoOf [] [7] [⟨1⟩, ⟨2⟩]) .VK_SUBPASS_CONTENTS_INLINE).2.2 1 (by decide)

/-- C5: `setContent` ignores chain structures whose `sType` it does not recognize: the
result code, the clear values and the attachments are those of the same request with
these structures removed; and when the chain holds only such structures, the call
adds exactly the attachments of the framebuffer. -/
theorem setContent_ignores_unrecognized {N_CV N_A : Nat}
    (self : MVKCmdBeginRenderPass N_CV N_A) (cmdBuff : MVKCommandBuffer)
    (req : VkRenderPassBeginInfo) (contents : VkSubpassContents) :
    (self.setContent cmdBuff req contents).1
        = (self.setContent cmdBuff (withoutUnrecognized req) contents).1
      ∧ (self.setContent cmdBuff req contents).2._clearValues.contents
        = (self.setContent cmdBuff (withoutUnrecognized req) contents).2._clearValues.contents
      ∧ (self.setContent cmdBuff req contents).2._attachments.contents
        = (self.setContent cmdBuff (withoutUnrecognized req) contents).2._attachments.contents
      ∧ ((∀ s ∈ req.pNext, s.sType ≠ VK_STRUCTURE_TYPE_RENDER_PASS_ATTACHMENT_BEGIN_INFO) →
          (self.setContent cmdBuff req contents).2._attachments.contents
            = self._attachments.contents
              ++ arrayElems req.framebuffer.getAttachmentCount
                  req.framebuffer.getAttachment) := by
  refine ⟨rfl, ?_, ?_, ?_⟩
  · rw [setContent_clearValues_eq, setContent_clearValues_eq]
    rfl
  · rw [setContent_attachments_eq, setContent_attachments_eq, pNextLoop_filter req.pNext]
    rfl
  · intro h
    rw [setContent_attachments_eq, pNextLoop_unrecognized _ h]
    show (pushBackLoop _ _ 0 _).elems = _
    rw [pushBackLoop_zero]
    rfl

/-- Witness of C5: a chain made of two unrecognized structures, recorded into a new
command, resolves to the three attachments of the framebuffer. -/
theorem setContent_ignores_unrecognized_witness :
    ((MVKCmdBeginRenderPass.fresh 9 9 unsetBase).setContent 0
        (beginInfoOf [deviceGroupBeginInfo, deviceGroupBeginInfo] [7, 8, 9] [])
        .VK_SUBPASS_CONTENTS_INLINE).2._attachments.contents
      = (MVKCmdBeginRenderPass.fresh 9 9 unsetBase)._attachments.contents
        ++ arrayElems
            (beginInfoOf [deviceGroupBeginInfo, deviceGroupBeginInfo] [7, 8, 9]
              []).framebuffer.getAttachmentCount
            (beginInfoOf [deviceGroupBeginInfo, deviceGroupBeginInfo] [7, 8, 9]
              []).framebuffer.getAttachment :=
  (setContent_ignores_unrecognized (MVKCmdBeginRenderPass.fresh 9 9 unsetBase) 0
    (beginInfoOf [deviceGroupBeginInfo, deviceGroupBeginInfo] [7, 8, 9] [])
    .VK_SUBPASS_CONTENTS_INLINE).2.2.2 (by decide)

/-- C6: the overload taking a `VkSubpassBeginInfo` leaves the command in the same state
and returns the same result as the overload taking the contents mode, called with the
`contents` field of that structure. -/
theorem setContent_overloads_agree {N_CV N_A : Nat}
    (self : MVKCmdBeginRenderPass N_CV N_A) (cmdBuff : MVKCommandBuffer)
    (req : VkRenderPassBeginInfo) (pSubpassBeginInfo : VkSubpassBeginInfo) :
    self.setContent2 cmdBuff req pSubpassBeginInfo
      = self.setContent cmdBuff req pSubpassBeginInfo.contents
    ∧ (self.setContent2 cmdBuff req pSubpassBeginInfo).1
      = (self.setContent cmdBuff req pSubpassBeginInfo.contents).1
    ∧ (self.setContent2 cmdBuff req pSubpassBeginInfo).2
      = (self.setContent cmdBuff req pSubpassBeginInfo.contents).2 :=
  ⟨rfl, rfl, rfl⟩

/-- C7: `encode` makes exactly one call on the encoder, `beginRenderpass`, with the
captured contents mode, the captured render pass, the extent and layer count of the
captured framebuffer, the captured render area, and the captured clear values and
attachments in the order `setContent` left them; the command itself is unchanged. -/
theorem encode_issues_one_beginRenderpass {N_CV N_A : Nat}
    (self : MVKCmdBeginRenderPass N_CV N_A) (cmdBuff : MVKCommandBuffer)
    (req : VkRenderPassBeginInfo) (contents : VkSubpassContents)
    (cmdEncoder : MVKCommandEncoder) :
    ((self.encode cmdEncoder).1 = self
      ∧ (self.encode cmdEncoder).2.calls
        = cmdEncoder.calls
          ++ [EncoderCall.beginRenderpass self.toMVKCmdBeginRenderPassBase self._contents
                self._renderPass self._framebuffer.getExtent2D self._framebuffer.getLayerCount
                self._renderArea self._clearValues.contents self._attachments.contents])
    ∧ (((self.setContent cmdBuff req contents).2.encode cmdEncoder).1
        = (self.setContent cmdBuff req contents).2
      ∧ ((self.setContent cmdBuff req contents).2.encode cmdEncoder).2.calls
        = cmdEncoder.calls
          ++ [EncoderCall.beginRenderpass
                (self.setContent cmdBuff req contents).2.toMVKCmdBeginRenderPassBase
                (self.setContent cmdBuff req contents).2._contents
                (self.setContent cmdBuff req contents).2._renderPass
                (self.setContent cmdBuff req contents).2._framebuffer.getExtent2D
                (self.setContent cmdBuff req contents).2._framebuffer.getLayerCount
                (self.setContent cmdBuff req contents).2._renderArea
                (arrayElems req.clearValueCount req.pClearValues)
                (self.setContent cmdBuff req contents).2._attachments.contents]) := by
  refine ⟨⟨rfl, rfl⟩, rfl, ?_⟩
  rw [← setContent_clearValues_eq self cmdBuff req contents]
  rfl

/-- C9: both overloads of `setContent` return `VK_SUCCESS`, for every command state and
every begin request. -/
theorem setContent_returns_success {N_CV N_A : Nat}
    (self : MVKCmdBeginRenderPass N_CV N_A) (cmdBuff : MVKCommandBuffer)
    (req : VkRenderPassBeginInfo) (contents : VkSubpassContents)
    (pSubpassBeginInfo : VkSubpassBeginInfo) :
    (self.setContent cmdBuff req contents).1 = VK_SUCCESS
      ∧ (self.setContent2 cmdBuff req pSubpassBeginInfo).1 = VK_SUCCESS :=
  ⟨rfl, rfl⟩

/-! `isAny` and the concrete instantiations -/

/-- The scan of `isAny` answers `true` exactly for the members of the list. -/
theorem isAny_iff_mem (value : Nat) (desired : List Nat) :
    isAny value desired = true ↔ value ∈ desired := by
  induction desired with
  | nil => simp [isAny]
  | cons d rest ih =>
    by_cases h : value = d
    · simp [isAny, h]
    · simp [isAny, h, ih]

/-- C10: `isAny(v, L)` is true exactly when `v` is an element of `L` (false for the
empty list); so `COND_CV` defaults to true exactly for `N_CV` in 1, 2, 9 and `COND_A`
exactly for `N_A` in 0, 1, 2, 9, and each of the twelve typedefs passes the flags its
defaults would compute, namely `true, true`. -/
theorem isAny_spec_and_typedef_flags :
    (∀ (v : Nat) (L : List Nat), isAny v L = true ↔ v ∈ L)
      ∧ (∀ v : Nat, isAny v [] = false)
      ∧ (∀ N_CV : Nat, COND_CV_default N_CV = true ↔ N_CV = 1 ∨ N_CV = 2 ∨ N_CV = 9)
      ∧ (∀ N_A : Nat, COND_A_default N_A = true ↔ N_A = 0 ∨ N_A = 1 ∨ N_A = 2 ∨ N_A = 9)
      ∧ beginRenderPassTypedefs.length = 12
      ∧ (∀ t ∈ beginRenderPassTypedefs,
          t.COND_CV = COND_CV_default t.N_CV ∧ t.COND_A = COND_A_default t.N_A
            ∧ t.COND_CV = true ∧ t.COND_A = true) := by
  refine ⟨isAny_iff_mem, fun _ => rfl, ?_, ?_, rfl, by decide⟩
  · intro n
    simp [COND_CV_default, isAny_iff_mem]
  · intro n
    simp [COND_A_default, isAny_iff_mem]

/-- Witness of C10: the scan finds 9 in the list of `COND_CV` and does not find 3. -/
theorem isAny_spec_and_typedef_flags_witness :
    isAny 9 [1, 2, 9] = true ∧ ¬ (isAny 3 [1, 2, 9] = true) :=
  ⟨(isAny_spec_and_typedef_flags.1 9 [1, 2, 9]).mpr (by decide),
   fun h => absurd ((isAny_spec_and_typedef_flags.1 3 [1, 2, 9]).mp h) (by decide)⟩

/-- C8, as stated, fails for `MVKCmdExecuteCommands`: its typedefs offer the two
capacities 1 and 16, a small tier and the overflow tier, and no further tier between
them. -/
theorem executeCommands_breaks_tierInvariant :
    executeCommandsCapacities = [1, 16] ∧ ¬ TierInvariant executeCommandsCapacities := by
  decide

/-- C8, amended: with `kMVKCachedViewportScissorCount` above 1, every payload kind offers
the small tier of capacity 1 and exactly one overflow tier, the largest capacity offered;
a further common-small tier is offered for the clear values and the attachments of
begin-render-pass and for no other kind, the other three offering two tiers. -/
theorem capacity_tiers (kMVKCachedViewportScissorCount : Nat)
    (hk : 1 < kMVKCachedViewportScissorCount) :
    offeredCapacities kMVKCachedViewportScissorCount .beginRenderPassClearValues = [1, 2, 9]
      ∧ offeredCapacities kMVKCachedViewportScissorCount .beginRenderPassAttachments
        = [0, 1, 2, 9]
      ∧ offeredCapacities kMVKCachedViewportScissorCount .executeCommands = [1, 16]
      ∧ offeredCapacities kMVKCachedViewportScissorCount .setViewport
        = [1, kMVKCachedViewportScissorCount]
      ∧ offeredCapacities kMVKCachedViewportScissorCount .setScissor
        = [1, kMVKCachedViewportScissorCount]
      ∧ (∀ kind, HasSmallTier (offeredCapacities kMVKCachedViewportScissorCount kind)
          ∧ HasExactlyOneOverflowTier (offeredCapacities kMVKCachedViewportScissorCount kind))
      ∧ (∀ kind, HasCommonSmallTier (offeredCapacities kMVKCachedViewportScissorCount kind)
          ↔ kind = .beginRenderPassClearValues ∨ kind = .beginRenderPassAttachments) := by
  have hne : kMVKCachedViewportScissorCount ≠ 1 := by omega
  have hle : ¬ kMVKCachedViewportScissorCount ≤ 1 := by omega
  have hv : offeredCapacities kMVKCachedViewportScissorCount .setViewport
      = [1, kMVKCachedViewportScissorCount] := by
    simp [offeredCapacities, setViewportTypedefs, List.eraseDups, List.eraseDups.loop, hne]
  have hs : offeredCapacities kMVKCachedViewportScissorCount .setScissor
      = [1, kMVKCachedViewportScissorCount] := by
    simp [offeredCapacities, setScissorTypedefs, List.eraseDups, List.eraseDups.loop, hne]
  have hcv : offeredCapacities kMVKCachedViewportScissorCount .beginRenderPassClearValues
      = [1, 2, 9] := rfl
  have ha : offeredCapacities kMVKCachedViewportScissorCount .beginRenderPassAttachments
      = [0, 1, 2, 9] := rfl
  have he : offeredCapacities kMVKCachedViewportScissorCount .executeCommands
      = [1, 16] := rfl
  have two_small : HasSmallTier [1, kMVKCachedViewportScissorCount] := by
    simp [HasSmallTier]
  have two_overflow : HasExactlyOneOverflowTier [1, kMVKCachedViewportScissorCount] := by
    simp [HasExactlyOneOverflowTier, List.filter, hle, Nat.le_of_lt hk]
  have two_common : ¬ HasCommonSmallTier [1, kMVKCachedViewportScissorCount] := by
    simp [HasCommonSmallTier, Nat.le_of_lt hk]
  refine ⟨hcv, ha, he, hv, hs, ?_, ?_⟩
  · intro kind
    cases kind
    · rw [hcv]; decide
    · rw [ha]; decide
    · rw [he]; decide
    · rw [hv]; exact ⟨two_small, two_overflow⟩
    · rw [hs]; exact ⟨two_small, two_overflow⟩
  · intro kind
    cases kind
    · rw [hcv]; decide
    · rw [ha]; decide
    · rw [he]; decide
    · rw [hv]; simpa using two_common
    · rw [hs]; simpa using two_common

/-- Witness of C8, amended: the constant taken as 16. -/
theorem capacity_tiers_witness :
    offeredCapacities 16 .setViewport = [1, 16]
      ∧ HasExactlyOneOverflowTier (offeredCapacities 16 .setViewport)
      ∧ ¬ HasCommonSmallTier (offeredCapacities 16 .setScissor) :=
  ⟨(capacity_tiers 16 (by decide)).2.2.2.1,
   ((capacity_tiers 16 (by decide)).2.2.2.2.2.1 .setViewport).2,
   fun h => by
     have h2 := ((capacity_tiers 16 (by decide)).2.2.2.2.2.2 .setScissor).mp h
     simp at h2⟩

end MoltenVK
